import Mathlib

/-!
# Verification of the csv-info-mcp orchestration core

Shallow embedding of the two cooperating state machines of the repository:

* server side (`src/server.py`): the capability resolver `get_directories`
  and the file lookup `find_file_in_allowed_dirs`;
* client side (`src/client.py`): the tool-catalog adapter
  `convert_tools_to_ollama_format` and the query dispatch loop
  `MCPClient.process_query`.

External collaborators (session transport, chat endpoint, the CSV reader,
the filesystem) are modelled as explicit parameters or as finite data.
-/

set_option autoImplicit false

namespace CSVInfo

/-! ## Server side: data model

`Root` models `mcp.types.Root` as used by the server: only `root.uri.path`
is read, an optional path string (`None` when the URL has no path).
`CliArgs` models the result of `parse_args()`: `--root_directory` has
`nargs=1`, so when present it is a one-element list and the code reads
`args.root_directory[0]`; we model that single element directly.
`ServerState` models the module-global `allowed_directories`. -/

structure Root where
  path : Option String
deriving DecidableEq, Repr

structure CliArgs where
  root_directory : Option String
deriving DecidableEq, Repr

structure ServerState where
  allowed_directories : Option (List String)
deriving DecidableEq, Repr

/-- The two `ValueError`s `get_directories` can raise. -/
inductive ResolveError where
  | noRootsFromClient
  | noRootDirectories
deriving DecidableEq, Repr

/-- Embedding of `get_directories` (src/server.py lines 15-44).

The coroutine's effects are made explicit: `cap` is the result of
`ctx.session.check_client_capability(ClientCapabilities(roots=RootsCapability()))`,
`roots` the list returned by `ctx.session.list_roots()`, and `args` the
parsed CLI arguments. The global cache is threaded as `ServerState`; the
returned state is the global after the call (unchanged when the call
raises, since the Python assignment never runs on the raising paths). -/
def get_directories (st : ServerState) (cap : Bool) (roots : List Root)
    (args : CliArgs) : Except ResolveError (List String) × ServerState :=
  match st.allowed_directories with
  | some dirs => (.ok dirs, st)
  | none =>
    if cap then
      let dirs := roots.filterMap Root.path
      if dirs.length = 0 then
        (.error .noRootsFromClient, st)
      else
        (.ok dirs, ⟨some dirs⟩)
    else
      match args.root_directory with
      | some rd => (.ok [rd], ⟨some [rd]⟩)
      | none => (.error .noRootDirectories, st)

/-- The invariant of the spec's AllowedDirectorySet: whatever is cached is
non-empty. -/
def cacheNonempty (st : ServerState) : Prop :=
  ∀ d, st.allowed_directories = some d → d ≠ []

/-! ## Server side: filesystem model and file lookup

The filesystem is a finite collection of regular files and directories,
each named by its resolved absolute path, represented as the list of path
components below the root.  `resolveFrom` models kernel path resolution as
exercised by `Path.exists()` / `Path.is_file()`: components are walked left
to right, every intermediate step requires the current prefix to be a
directory, `..` moves to the parent (staying at the root when already
there), and `.` is a no-op. -/

structure FS where
  files : List (List String)
  dirs : List (List String)
deriving DecidableEq, Repr

def FS.isFile (fs : FS) (p : List String) : Bool := fs.files.contains p

def FS.isDir (fs : FS) (p : List String) : Bool := fs.dirs.contains p

def resolveFrom (fs : FS) : List String → List String → Option (List String)
  | cur, [] => some cur
  | cur, c :: rest =>
    if fs.isDir cur then
      if c = "." then resolveFrom fs cur rest
      else if c = ".." then resolveFrom fs cur.dropLast rest
      else resolveFrom fs (cur ++ [c]) rest
    else none

/-- Resolution of an absolute path (list of components) against the root. -/
def resolvePath (fs : FS) (p : List String) : Option (List String) :=
  resolveFrom fs [] p

/-- `Path.exists()`: the path resolves and names a file or directory. -/
def pathExists (fs : FS) (p : List String) : Bool :=
  match resolvePath fs p with
  | some q => fs.isFile q || fs.isDir q
  | none => false

/-- `Path.is_file()`: the path resolves and names a regular file. -/
def pathIsFile (fs : FS) (p : List String) : Bool :=
  match resolvePath fs p with
  | some q => fs.isFile q
  | none => false

/-- A path string as `pathlib` parses it: an absolute flag plus the
component list (which may contain `..` components). -/
structure PyPath where
  absolute : Bool
  comps : List String
deriving DecidableEq, Repr

/-- `Path(dir) / file_path`: when the right operand is absolute it replaces
the left operand entirely; otherwise the components are concatenated
(no normalisation of `..`). Allowed directories are absolute, given as
component lists. -/
def joinPath (dir : List String) (fp : PyPath) : List String :=
  if fp.absolute then fp.comps else dir ++ fp.comps

/-- Embedding of `find_file_in_allowed_dirs` (src/server.py lines 47-53):
scan `allowed_dirs` in order, return the first joined path that exists and
is a regular file (the joined path itself, not its resolution — Python
returns `str(potential_path)` unnormalised). -/
def find_file_in_allowed_dirs (fs : FS) (file_path : PyPath)
    (allowed_dirs : List (List String)) : Option (List String) :=
  match allowed_dirs with
  | [] => none
  | d :: rest =>
    let potential := joinPath d file_path
    if pathExists fs potential && pathIsFile fs potential then some potential
    else find_file_in_allowed_dirs fs file_path rest

/-- The returned path denotes a file inside directory `d` when its
resolution extends `d`. -/
def underDir (d p : List String) : Bool := d.isPrefixOf p

/-! ## Client side: data model

`Tool` models `mcp.Tool` as read by the adapter: `name`, `description`,
and an `inputSchema` carrying a `required` list and a `properties`
mapping (an ordered key/schema association, as a JSON object is).  Each
property schema has its `type` plus arbitrary further attributes, which
the adapter drops. -/

structure PropSchema where
  type : String
  extraAttrs : List (String × String)
deriving DecidableEq, Repr

structure InputSchema where
  required : List String
  properties : List (String × PropSchema)
deriving DecidableEq, Repr

structure Tool where
  name : String
  description : String
  inputSchema : InputSchema
deriving DecidableEq, Repr

structure OllamaProp where
  type : String
deriving DecidableEq, Repr

structure OllamaParameters where
  required : List String
  properties : List (String × OllamaProp)
deriving DecidableEq, Repr

structure OllamaFunction where
  name : String
  description : String
  parameters : OllamaParameters
deriving DecidableEq, Repr

structure OllamaTool where
  type : String
  function : OllamaFunction
deriving DecidableEq, Repr

/-- Embedding of `convert_tools_to_ollama_format` (src/client.py lines
22-37). -/
def convert_tools_to_ollama_format (tool : Tool) : OllamaTool :=
  { type := "function"
    function :=
      { name := tool.name
        description := tool.description
        parameters :=
          { required := tool.inputSchema.required
            properties :=
              tool.inputSchema.properties.map fun kv => (kv.1, ⟨kv.2.type⟩) } } }

/-- A model-requested tool call: `tool.function.name` and
`tool.function.arguments` (an argument mapping; values are modelled as
strings, their shape is irrelevant to the dispatch logic). -/
structure ToolCall where
  name : String
  arguments : List (String × String)
deriving DecidableEq, Repr

/-- The chat endpoint's message: optional text `content` and the list of
`tool_calls` (Python's `None` and `[]` are both falsy; both are `[]`
here). -/
structure ResponseMessage where
  content : Option String
  tool_calls : List ToolCall
deriving DecidableEq, Repr

structure ChatResponse where
  message : ResponseMessage
deriving DecidableEq, Repr

/-- A content block of a tool result; only `TextContent` is recognised by
the client. -/
inductive ContentBlock where
  | textContent (text : String)
  | otherContent
deriving DecidableEq, Repr

/-- The `structuredContent` dict as the client uses it: only the value
under its `"result"` key is read, and immediately stringified; we model
that stringified value. -/
structure StructuredContent where
  result : String
deriving DecidableEq, Repr

structure CallToolResult where
  structuredContent : Option StructuredContent
  content : List ContentBlock
deriving DecidableEq, Repr

/-- A conversation message as built by `process_query`: a role-tagged dict
with `content` and, for tool messages, a `tool_name`. -/
structure ChatMessage where
  role : String
  content : String
  tool_name : Option String := none
deriving DecidableEq, Repr

/-- Python truthiness of `message.content` (`None` and `""` are falsy). -/
def truthyStr : Option String → Bool
  | none => false
  | some s => !s.isEmpty

/-- The errors `process_query` can raise in its tool branch. -/
inductive PyError where
  | valueError (msg : String)
  | indexError
deriving DecidableEq, Repr

def PyError.isValueError : PyError → Bool
  | .valueError _ => true
  | .indexError => false

/-- str() of the argument mapping, as interpolated into the invocation
marker; the exact rendering is opaque to every claim. -/
def argsToString (args : List (String × String)) : String :=
  String.intercalate ", " (args.map fun kv => kv.1 ++ "=" ++ kv.2)

/-- The human-readable invocation marker appended per tool call
(src/client.py line 141). -/
def toolMarker (tc : ToolCall) : String :=
  "[Calling tool " ++ tc.name ++ " with args " ++ argsToString tc.arguments ++ "]"

/-- Construction of the tool-role message from the executed call's result
(src/client.py lines 148-166): prefer `structuredContent`; otherwise
index `result.content[0]` (IndexError on an empty list) and accept only a
text block, raising `ValueError` on any other kind. -/
def buildToolMessage (result : CallToolResult) (tool_name : String) :
    Except PyError ChatMessage :=
  match result.structuredContent with
  | some sc => .ok ⟨"tool", sc.result, some tool_name⟩
  | none =>
    match result.content with
    | [] => .error .indexError
    | c :: _ =>
      match c with
      | .textContent t => .ok ⟨"tool", t, some tool_name⟩
      | .otherContent => .error (.valueError "Unsupported content type from tool")

def userMessage (query : String) : ChatMessage := ⟨"user", query, none⟩

/-- Observable outcome of one `process_query` run: the `final_text` trace,
the tool calls executed over the session transport in order, and the
message list submitted to the follow-up chat request (`none` when no
follow-up request is made). -/
structure ProcessOutcome where
  final_text : List String
  executedCalls : List ToolCall
  followUpMessages : Option (List ChatMessage)
deriving DecidableEq, Repr

/-- The string `process_query` returns: `"\n".join(final_text)`. -/
def ProcessOutcome.answer (o : ProcessOutcome) : String :=
  String.intercalate "\n" o.final_text

/-- Embedding of the response-handling part of `MCPClient.process_query`
(src/client.py lines 126-175), from `message = response.message` on.

* Text branch (line 130): truthy `message.content` is the final answer.
* Tool branch (lines 133-173): the `for` loop executes EVERY tool call in
  order over the transport and appends a marker per call; after the loop
  `tool_name` and `result` hold the LAST iteration's values.  The
  `if message.content` append of an assistant message (lines 144-145) is
  kept although it is unreachable in this branch.  The tool message is
  built by `buildToolMessage`; the conversation is resubmitted without
  tools and the follow-up text appended to the trace.
* Neither branch: `final_text` stays `[]`.

`callTool` models `self.session.call_tool`, `chat` models
`self.ollama.chat` (second argument: the optional tool declarations). -/
def handle_response (m : ResponseMessage)
    (callTool : String → List (String × String) → CallToolResult)
    (chat : List ChatMessage → Option (List OllamaTool) → ChatResponse)
    (query : String) : Except PyError ProcessOutcome :=
  let messages : List ChatMessage := [userMessage query]
  if truthyStr m.content then
    .ok ⟨[m.content.getD ""], [], none⟩
  else
    match m.tool_calls with
    | [] => .ok ⟨[], [], none⟩
    | tc0 :: rest =>
      let calls := tc0 :: rest
      let final_text := calls.map toolMarker
      let lastTc := calls.getLastD tc0
      let result := callTool lastTc.name lastTc.arguments
      let messages1 :=
        if truthyStr m.content then
          messages ++ [⟨"assistant", m.content.getD "", none⟩]
        else messages
      match buildToolMessage result lastTc.name with
      | .error e => .error e
      | .ok toolMsg =>
        let messages2 := messages1 ++ [toolMsg]
        let response2 := chat messages2 none
        .ok ⟨final_text ++ [response2.message.content.getD ""], calls,
             some messages2⟩

/-- Embedding of `MCPClient.process_query` (src/client.py lines 112-175):
fetch the tool catalog, convert it, submit the single user message with
the converted tools, then handle the response. -/
def process_query (tools : List Tool)
    (chat : List ChatMessage → Option (List OllamaTool) → ChatResponse)
    (callTool : String → List (String × String) → CallToolResult)
    (query : String) : Except PyError ProcessOutcome :=
  let ollama_tools := tools.map convert_tools_to_ollama_format
  let response := chat [userMessage query] (some ollama_tools)
  handle_response response.message callTool chat query

deriving instance DecidableEq for Except

/-- The message submitted first by `process_query`, with the converted tool
declarations. -/
def firstResponse (tools : List Tool)
    (chat : List ChatMessage → Option (List OllamaTool) → ChatResponse)
    (query : String) : ResponseMessage :=
  (chat [userMessage query] (some (tools.map convert_tools_to_ollama_format))).message

theorem process_query_eq_handle (tools : List Tool)
    (chat : List ChatMessage → Option (List OllamaTool) → ChatResponse)
    (callTool : String → List (String × String) → CallToolResult)
    (query : String) :
    process_query tools chat callTool query =
      handle_response (firstResponse tools chat query) callTool chat query := rfl

/-- Net effect of the tool branch of `handle_response`: with falsy text
content and non-empty `tool_calls`, a marker is appended per call, every
call is recorded as executed, and the follow-up conversation carries the
tool message built from the last call's result only. -/
theorem handle_response_tool_branch (m : ResponseMessage)
    (callTool : String → List (String × String) → CallToolResult)
    (chat : List ChatMessage → Option (List OllamaTool) → ChatResponse)
    (query : String) (tc0 : ToolCall) (rest : List ToolCall)
    (hc : truthyStr m.content = false) (ht : m.tool_calls = tc0 :: rest) :
    handle_response m callTool chat query =
      match buildToolMessage
          (callTool ((tc0 :: rest).getLastD tc0).name
            ((tc0 :: rest).getLastD tc0).arguments)
          ((tc0 :: rest).getLastD tc0).name with
      | .error e => .error e
      | .ok toolMsg =>
        .ok ⟨(tc0 :: rest).map toolMarker ++
               [(chat [userMessage query, toolMsg] none).message.content.getD ""],
             tc0 :: rest, some [userMessage query, toolMsg]⟩ := by
  simp only [handle_response, hc, ht, Bool.false_eq_true, if_false,
    List.singleton_append]

/-! ## Capability resolver: theorems -/

/-- C4: with the cache unresolved and a capable client, `get_directories`
resolves from the live negotiation and never consults the static
`--root_directory` configuration (the result does not depend on the parsed
arguments); the static fallback runs only for an incapable client; the
steps follow the strict priority order cached value, live negotiation,
static configuration, failure. -/
theorem get_directories_priority
    (st : ServerState) (cap : Bool) (roots : List Root) (args args' : CliArgs) :
    (∀ d, st.allowed_directories = some d →
        get_directories st cap roots args = (.ok d, st)) ∧
    (st.allowed_directories = none → cap = true →
        get_directories st cap roots args = get_directories st cap roots args') ∧
    (st.allowed_directories = none → cap = true →
        roots.filterMap Root.path ≠ [] →
        get_directories st cap roots args =
          (.ok (roots.filterMap Root.path), ⟨some (roots.filterMap Root.path)⟩)) ∧
    (st.allowed_directories = none → cap = false →
        ∀ r, args.root_directory = some r →
        get_directories st cap roots args = (.ok [r], ⟨some [r]⟩)) ∧
    (st.allowed_directories = none → cap = false → args.root_directory = none →
        get_directories st cap roots args = (.error .noRootDirectories, st)) := by
  refine ⟨?_, ?_, ?_, ?_, ?_⟩
  · intro d hd
    simp [get_directories, hd]
  · intro hn hc
    subst hc
    simp [get_directories, hn]
  · intro hn hc hne
    subst hc
    simp [get_directories, hn, List.length_eq_zero, hne]
  · intro hn hc r hr
    subst hc
    simp [get_directories, hn, hr]
  · intro hn hc hr
    subst hc
    simp [get_directories, hn, hr]

/-- C4 witness: with a capable client and a static `--root_directory` both
configured, the live negotiation result takes precedence. -/
theorem get_directories_priority_witness :
    get_directories ⟨none⟩ true [⟨some "/r"⟩] ⟨some "/cli"⟩ =
      (.ok ["/r"], ⟨some ["/r"]⟩) :=
  (get_directories_priority ⟨none⟩ true [⟨some "/r"⟩] ⟨some "/cli"⟩ ⟨none⟩).2.2.1
    rfl rfl (by decide)

/-- C5: a capable client whose root list yields zero directory paths makes
resolution fail with the `ValueError` `noRootsFromClient` and leaves the
cache untouched; and on every path, a successful resolution returns a
non-empty directory list and preserves the non-empty-cache invariant. -/
theorem get_directories_nonempty_or_fails
    (st : ServerState) (cap : Bool) (roots : List Root) (args : CliArgs)
    (hinv : cacheNonempty st) :
    (st.allowed_directories = none → cap = true →
        roots.filterMap Root.path = [] →
        get_directories st cap roots args = (.error .noRootsFromClient, st)) ∧
    (∀ dirs, (get_directories st cap roots args).1 = .ok dirs →
        dirs ≠ [] ∧ cacheNonempty (get_directories st cap roots args).2) := by
  constructor
  · intro hn hc he
    subst hc
    simp [get_directories, hn, he]
  · intro dirs hok
    unfold get_directories at hok ⊢
    cases hst : st.allowed_directories with
    | some d =>
      simp [hst] at hok ⊢
      subst hok
      exact ⟨hinv d hst, hinv⟩
    | none =>
      simp only [hst] at hok ⊢
      cases cap with
      | false =>
        cases hr : args.root_directory with
        | some rd =>
          simp [hr] at hok ⊢
          subst hok
          simp [cacheNonempty]
        | none => simp [hr] at hok
      | true =>
        by_cases hz : (roots.filterMap Root.path).length = 0
        · simp [hz] at hok
        · simp [hz] at hok ⊢
          subst hok
          refine ⟨fun h => hz (by simp [h]), fun d' hd' => ?_⟩
          simp only [Option.some.injEq] at hd'
          subst hd'
          exact fun h => hz (by simp [h])

/-- C5 witness: at the concrete inputs, both conjuncts hold. -/
theorem get_directories_nonempty_or_fails_witness :
    (((⟨none⟩ : ServerState).allowed_directories = none → true = true →
        ([⟨none⟩] : List Root).filterMap Root.path = [] →
        get_directories ⟨none⟩ true [⟨none⟩] ⟨none⟩ =
          (.error .noRootsFromClient, ⟨none⟩)) ∧
    (∀ dirs, (get_directories ⟨none⟩ true [⟨none⟩] ⟨none⟩).1 = .ok dirs →
        dirs ≠ [] ∧ cacheNonempty (get_directories ⟨none⟩ true [⟨none⟩] ⟨none⟩).2)) :=
  get_directories_nonempty_or_fails ⟨none⟩ true [⟨none⟩] ⟨none⟩
    (fun _ h => Option.noConfusion h)

/-- C6: after one successful resolution, every later call — whatever the
client's capability, roots or the CLI arguments then look like — returns
the identical cached list and leaves the cache unchanged. -/
theorem get_directories_idempotent
    (st : ServerState) (cap : Bool) (roots : List Root) (args : CliArgs)
    (dirs : List String)
    (h : (get_directories st cap roots args).1 = .ok dirs) :
    ∀ (cap' : Bool) (roots' : List Root) (args' : CliArgs),
      get_directories (get_directories st cap roots args).2 cap' roots' args' =
        (.ok dirs, (get_directories st cap roots args).2) := by
  intro cap' roots' args'
  unfold get_directories at h ⊢
  cases hst : st.allowed_directories with
  | some d =>
    simp [hst] at h ⊢
    exact h
  | none =>
    simp only [hst] at h ⊢
    cases cap with
    | false =>
      cases hr : args.root_directory with
      | some rd =>
        simp [hr] at h ⊢
        exact h
      | none => simp [hr] at h
    | true =>
      by_cases hz : (roots.filterMap Root.path).length = 0
      · simp [hz] at h
      · simp [hz] at h ⊢
        exact h

/-- C6 witness: resolve once from a capable client, then a second call with
different capability, roots and arguments returns the cached list. -/
theorem get_directories_idempotent_witness :
    get_directories (get_directories ⟨none⟩ true [⟨some "/tmp"⟩] ⟨none⟩).2 false []
        ⟨some "/other"⟩ =
      (.ok ["/tmp"], (get_directories ⟨none⟩ true [⟨some "/tmp"⟩] ⟨none⟩).2) :=
  get_directories_idempotent ⟨none⟩ true [⟨some "/tmp"⟩] ⟨none⟩ ["/tmp"] rfl
    false [] ⟨some "/other"⟩

/-! ## File lookup: theorems -/

/-- C7: the lookup scans the allowed directories in order and returns the
joined path from the first directory whose joined path exists as a regular
file — it is `List.find?` over the list, `none` when no directory
matches. In particular, with directories `[a, b]` and the file present in
both, the result is the join under `a`. -/
theorem find_file_first_match (fs : FS) (fp : PyPath)
    (dirs : List (List String)) :
    find_file_in_allowed_dirs fs fp dirs =
      (dirs.find? fun d =>
          pathExists fs (joinPath d fp) && pathIsFile fs (joinPath d fp)).map
        fun d => joinPath d fp := by
  induction dirs with
  | nil => rfl
  | cons d rest ih =>
    by_cases h :
        (pathExists fs (joinPath d fp) && pathIsFile fs (joinPath d fp)) = true
    · simp [find_file_in_allowed_dirs, List.find?_cons_of_pos, h]
    · simp [find_file_in_allowed_dirs, List.find?_cons_of_neg, h, ih]

/-- The filesystem of the C2 failing input: the root and `/a` are
directories, and `/x` is a regular file, outside `/a`. -/
def fsTraversal : FS := ⟨[["x"]], [[], ["a"]]⟩

/-- C2 (evidence for the code bug): with allowed directories `[/a]` and the
relative file path `../x`, the lookup returns `/a/../x`, which resolves to
the regular file `/x` — outside every directory of the allowed set. -/
theorem find_file_escapes_allowed_set :
    find_file_in_allowed_dirs fsTraversal ⟨false, ["..", "x"]⟩ [["a"]] =
      some ["a", "..", "x"] ∧
    resolvePath fsTraversal ["a", "..", "x"] = some ["x"] ∧
    underDir ["a"] ["x"] = false := by decide

/-! ## Tool catalog adapter: theorems -/

/-- The C8 counterexample input: a descriptor whose `required` list names a
property absent from its `properties` mapping. -/
def toolBad : Tool := ⟨"t", "d", ⟨["a"], []⟩⟩

/-- C8 counterexample: the adapter copies `required` verbatim, so on
`toolBad` the output's required names are not a subset of its exposed
property names. -/
theorem convert_required_not_subset :
    (convert_tools_to_ollama_format toolBad).function.parameters.required =
      ["a"] ∧
    ((convert_tools_to_ollama_format toolBad).function.parameters.properties.map
      Prod.fst) = [] ∧
    (((convert_tools_to_ollama_format toolBad).function.parameters.required).all
      fun r =>
        ((convert_tools_to_ollama_format
            toolBad).function.parameters.properties.map Prod.fst).contains r) =
      false := by decide

/-- C8 amended: the adapter's output carries the descriptor's name and
description, preserves the required list, and exposes exactly the declared
property names, each mapped to only its type; when every required name
occurs among the descriptor's declared property names, the output's
required names are a subset of its exposed property names. -/
theorem convert_tools_shape (tool : Tool)
    (h : ∀ r ∈ tool.inputSchema.required,
        r ∈ tool.inputSchema.properties.map Prod.fst) :
    (convert_tools_to_ollama_format tool).function.name = tool.name ∧
    (convert_tools_to_ollama_format tool).function.description =
      tool.description ∧
    (convert_tools_to_ollama_format tool).function.parameters.required =
      tool.inputSchema.required ∧
    (convert_tools_to_ollama_format tool).function.parameters.properties =
      tool.inputSchema.properties.map (fun kv => (kv.1, ⟨kv.2.type⟩)) ∧
    ∀ r ∈ (convert_tools_to_ollama_format tool).function.parameters.required,
      r ∈ (convert_tools_to_ollama_format
          tool).function.parameters.properties.map Prod.fst := by
  refine ⟨rfl, rfl, rfl, rfl, ?_⟩
  intro r hr
  have h2 := h r hr
  simpa [convert_tools_to_ollama_format, List.map_map, Function.comp]
    using h2

/-- A well-formed descriptor, as the server's tools declare them. -/
def toolGood : Tool :=
  ⟨"count_csv_rows", "Count the number of rows in a CSV file",
    ⟨["file_path"], [("file_path", ⟨"string", [("title", "File Path")]⟩)]⟩⟩

/-- C8 witness: the amended claim at the concrete descriptor `toolGood`. -/
theorem convert_tools_shape_witness :
    (convert_tools_to_ollama_format toolGood).function.name = toolGood.name ∧
    (convert_tools_to_ollama_format toolGood).function.description =
      toolGood.description ∧
    (convert_tools_to_ollama_format toolGood).function.parameters.required =
      toolGood.inputSchema.required ∧
    (convert_tools_to_ollama_format toolGood).function.parameters.properties =
      toolGood.inputSchema.properties.map (fun kv => (kv.1, ⟨kv.2.type⟩)) ∧
    ∀ r ∈ (convert_tools_to_ollama_format toolGood).function.parameters.required,
      r ∈ (convert_tools_to_ollama_format
          toolGood).function.parameters.properties.map Prod.fst :=
  convert_tools_shape toolGood (by decide)

/-! ## Query dispatch loop: theorems -/

/-- C3: a model response with truthy text content makes that text the final
answer: no tool is executed over the transport and no follow-up request is
made, even when the response also carries tool calls (the text branch takes
precedence), and joining the trace returns exactly that text. -/
theorem process_query_text_precedence
    (tools : List Tool)
    (chat : List ChatMessage → Option (List OllamaTool) → ChatResponse)
    (callTool : String → List (String × String) → CallToolResult)
    (query : String)
    (hc : truthyStr (firstResponse tools chat query).content = true) :
    process_query tools chat callTool query =
      .ok ⟨[(firstResponse tools chat query).content.getD ""], [], none⟩ ∧
    ProcessOutcome.answer
        ⟨[(firstResponse tools chat query).content.getD ""], [], none⟩ =
      (firstResponse tools chat query).content.getD "" := by
  constructor
  · rw [process_query_eq_handle]
    simp only [handle_response, hc, if_true]
  · rfl

/-- The model response of the C3 witness: both text and a tool call. -/
def mTextAndCalls : ResponseMessage := ⟨some "direct answer", [⟨"A", []⟩]⟩

def chatText : List ChatMessage → Option (List OllamaTool) → ChatResponse :=
  fun _ declared =>
    match declared with
    | some _ => ⟨mTextAndCalls⟩
    | none => ⟨⟨some "followup", []⟩⟩

def callToolStub : String → List (String × String) → CallToolResult :=
  fun n _ => ⟨some ⟨"res-" ++ n⟩, []⟩

/-- C3 witness: with text and a tool call both present, the text is the
answer and nothing is executed. -/
theorem process_query_text_precedence_witness :
    process_query [] chatText callToolStub "q" =
      .ok ⟨["direct answer"], [], none⟩ ∧
    ProcessOutcome.answer ⟨["direct answer"], [], none⟩ = "direct answer" :=
  process_query_text_precedence [] chatText callToolStub "q" rfl

/-- C10: a model response with neither truthy text content nor tool calls
yields the empty answer: no tool executed, no follow-up request, no
error. -/
theorem process_query_empty_response
    (tools : List Tool)
    (chat : List ChatMessage → Option (List OllamaTool) → ChatResponse)
    (callTool : String → List (String × String) → CallToolResult)
    (query : String)
    (hc : truthyStr (firstResponse tools chat query).content = false)
    (ht : (firstResponse tools chat query).tool_calls = []) :
    process_query tools chat callTool query = .ok ⟨[], [], none⟩ ∧
    ProcessOutcome.answer ⟨[], [], none⟩ = "" := by
  constructor
  · rw [process_query_eq_handle]
    simp only [handle_response, hc, Bool.false_eq_true, if_false, ht]
  · rfl

def chatEmpty : List ChatMessage → Option (List OllamaTool) → ChatResponse :=
  fun _ declared =>
    match declared with
    | some _ => ⟨⟨none, []⟩⟩
    | none => ⟨⟨some "followup", []⟩⟩

/-- C10 witness: the empty response at concrete inputs. -/
theorem process_query_empty_response_witness :
    process_query [] chatEmpty callToolStub "q" = .ok ⟨[], [], none⟩ ∧
    ProcessOutcome.answer ⟨[], [], none⟩ = "" :=
  process_query_empty_response [] chatEmpty callToolStub "q" rfl rfl

/-- The two tool calls of the C1 input. -/
def tcA : ToolCall := ⟨"A", [("k", "1")]⟩

def tcB : ToolCall := ⟨"B", [("k", "2")]⟩

/-- The C1 model response: no text, two tool calls A then B. -/
def mTwoCalls : ResponseMessage := ⟨none, [tcA, tcB]⟩

def chatTwoCalls : List ChatMessage → Option (List OllamaTool) → ChatResponse :=
  fun _ declared =>
    match declared with
    | some _ => ⟨mTwoCalls⟩
    | none => ⟨⟨some "done", []⟩⟩

/-- C1 counterexample: on a response with tool calls A then B, the
transport executes BOTH calls, in order — not only the last one. -/
theorem process_query_executes_nonlast_calls :
    (process_query [] chatTwoCalls callToolStub "q").map
        ProcessOutcome.executedCalls =
      .ok [tcA, tcB] ∧
    ([tcA, tcB] : List ToolCall) ≠ [tcB] := by decide

/-- C1 amended: with falsy text content and tool calls `tc0 :: rest`, the
dispatch loop executes EVERY tool call of the sequence in order over the
session transport, appends a human-readable invocation marker for every
call in the response's order, and threads only the LAST call's result back
into the follow-up conversation. -/
theorem process_query_multi_call_dispatch
    (tools : List Tool)
    (chat : List ChatMessage → Option (List OllamaTool) → ChatResponse)
    (callTool : String → List (String × String) → CallToolResult)
    (query : String) (tc0 : ToolCall) (rest : List ToolCall)
    (hc : truthyStr (firstResponse tools chat query).content = false)
    (ht : (firstResponse tools chat query).tool_calls = tc0 :: rest) :
    process_query tools chat callTool query =
      match buildToolMessage
          (callTool ((tc0 :: rest).getLastD tc0).name
            ((tc0 :: rest).getLastD tc0).arguments)
          ((tc0 :: rest).getLastD tc0).name with
      | .error e => .error e
      | .ok toolMsg =>
        .ok ⟨(tc0 :: rest).map toolMarker ++
               [(chat [userMessage query, toolMsg] none).message.content.getD ""],
             tc0 :: rest, some [userMessage query, toolMsg]⟩ := by
  rw [process_query_eq_handle]
  exact handle_response_tool_branch (firstResponse tools chat query) callTool
    chat query tc0 rest hc ht

/-- C1 witness: the amended dispatch behaviour at the two-call input. -/
theorem process_query_multi_call_dispatch_witness :
    process_query [] chatTwoCalls callToolStub "q" =
      match buildToolMessage
          (callToolStub (([tcA, tcB].getLastD tcA).name)
            (([tcA, tcB].getLastD tcA).arguments))
          ([tcA, tcB].getLastD tcA).name with
      | .error e => .error e
      | .ok toolMsg =>
        .ok ⟨[tcA, tcB].map toolMarker ++
               [(chatTwoCalls [userMessage "q", toolMsg]
                   none).message.content.getD ""],
             [tcA, tcB], some [userMessage "q", toolMsg]⟩ :=
  process_query_multi_call_dispatch [] chatTwoCalls callToolStub "q" tcA [tcB]
    rfl rfl

/-- The C9 model response: no text, one tool call. -/
def mOneCall : ResponseMessage := ⟨none, [tcA]⟩

def chatOneCall : List ChatMessage → Option (List OllamaTool) → ChatResponse :=
  fun _ declared =>
    match declared with
    | some _ => ⟨mOneCall⟩
    | none => ⟨⟨some "followup", []⟩⟩

/-- A tool result with neither a structured payload nor any content block. -/
def callToolEmpty : String → List (String × String) → CallToolResult :=
  fun _ _ => ⟨none, []⟩

/-- C9 counterexample: with no structured payload and an EMPTY content
list, `process_query` raises an index error, not a `ValueError`. -/
theorem process_query_index_error_not_value_error :
    process_query [] chatOneCall callToolEmpty "q" = .error .indexError ∧
    PyError.isValueError .indexError = false := by decide

/-- C9 amended: in the tool branch, writing `r` for the executed (last)
call's result: with no structured payload and an empty content list the
query fails with an index error; with no structured payload and a
non-text first block it fails with the `ValueError` "Unsupported content
type from tool"; with a structured payload present no error is raised and
the tool-role message carries the structured payload (preferred over any
content blocks); with a plain-text first block and no structured payload
no error is raised and the tool-role message carries that text. -/
theorem process_query_tool_result_shape
    (tools : List Tool)
    (chat : List ChatMessage → Option (List OllamaTool) → ChatResponse)
    (callTool : String → List (String × String) → CallToolResult)
    (query : String) (tc0 : ToolCall) (rest : List ToolCall)
    (r : CallToolResult)
    (hc : truthyStr (firstResponse tools chat query).content = false)
    (ht : (firstResponse tools chat query).tool_calls = tc0 :: rest)
    (hr : callTool ((tc0 :: rest).getLastD tc0).name
        ((tc0 :: rest).getLastD tc0).arguments = r) :
    (r.structuredContent = none → r.content = [] →
      process_query tools chat callTool query = .error .indexError) ∧
    (∀ cs, r.structuredContent = none → r.content = .otherContent :: cs →
      process_query tools chat callTool query =
        .error (.valueError "Unsupported content type from tool")) ∧
    (∀ sc, r.structuredContent = some sc →
      process_query tools chat callTool query =
        .ok ⟨(tc0 :: rest).map toolMarker ++
               [(chat [userMessage query,
                   ⟨"tool", sc.result, some ((tc0 :: rest).getLastD tc0).name⟩]
                 none).message.content.getD ""],
             tc0 :: rest,
             some [userMessage query,
               ⟨"tool", sc.result, some ((tc0 :: rest).getLastD tc0).name⟩]⟩) ∧
    (∀ t cs, r.structuredContent = none → r.content = .textContent t :: cs →
      process_query tools chat callTool query =
        .ok ⟨(tc0 :: rest).map toolMarker ++
               [(chat [userMessage query,
                   ⟨"tool", t, some ((tc0 :: rest).getLastD tc0).name⟩]
                 none).message.content.getD ""],
             tc0 :: rest,
             some [userMessage query,
               ⟨"tool", t, some ((tc0 :: rest).getLastD tc0).name⟩]⟩) := by
  rw [process_query_eq_handle,
    handle_response_tool_branch (firstResponse tools chat query) callTool chat
      query tc0 rest hc ht, hr]
  refine ⟨?_, ?_, ?_, ?_⟩
  · intro h1 h2
    simp [buildToolMessage, h1, h2]
  · intro cs h1 h2
    simp [buildToolMessage, h1, h2]
  · intro sc h1
    simp [buildToolMessage, h1]
  · intro t cs h1 h2
    simp [buildToolMessage, h1, h2]

/-- C9 witness: the empty-content case of the amended claim at concrete
inputs. -/
theorem process_query_tool_result_shape_witness :
    process_query [] chatOneCall callToolEmpty "q" = .error .indexError :=
  (process_query_tool_result_shape [] chatOneCall callToolEmpty "q" tcA []
      ⟨none, []⟩ rfl rfl rfl).1 rfl rfl

end CSVInfo
